import Mathlib

/-!
# Verification of the chat-session orchestrator

A shallow embedding of the per-session research-agent pipeline:

* `RAGTool.searchKnowledgeBase` (src/tools/rag_tool.ts) together with the
  durable-store hydration `getCuratedKnowledgeByIds` (src/data/dal.ts);
* `ChatSessionActor.handleUserQuery`, `executeTool` dispatch loop,
  `runSynthesis` and the WebSocket message handler
  (src/actors/ChatSessionActor.ts);
* `StructuredResponseTool.analyzeText` results (src/ai-tools.ts) are modelled
  by their returned `StructuredResponse` value: every model invocation inside
  `executeModel` is wrapped in try/catch and surfaces as
  `{success, structuredResult, error}`.

External effects (model calls, D1 writes, vector queries, capability
adapters) are supplied by oracles: each `await` of an external call is one
oracle field, `Except` describing either the returned value or a thrown
exception.  Durable-object storage (`state.storage.put/delete` and the
`@Persist` message history) is modelled as reliable state updates, and every
observable action of a turn is recorded in an ordered `Effect` trace.
-/

namespace Orchestrator

/-- Message role, `'user' | 'assistant'` in `AgentMessage`. -/
inductive Role where
  | user
  | assistant
deriving DecidableEq, Repr

/-- `AgentMessage { role, content }` from src/actors/ChatSessionActor.ts. -/
structure AgentMessage where
  role : Role
  content : String
deriving DecidableEq, Repr

/-- `ClarificationContext { originalQuery, clarifications }`. -/
structure ClarificationContext where
  originalQuery : String
  clarifications : List String
deriving DecidableEq, Repr

/-- The persisted per-session state: the `@Persist messageHistory` array plus
the two durable-storage keys `isAwaitingClarification` (absent ≡ false) and
`clarificationContext`. -/
structure SessionState where
  messageHistory : List AgentMessage
  awaitingClarification : Bool
  clarificationContext : Option ClarificationContext
deriving DecidableEq, Repr

/-- The fresh session: empty history, no storage keys set. -/
def SessionState.init : SessionState := ⟨[], false, none⟩

/-- Result of `ClarificationCheckSchema`: `needsClarification` plus the
optional `clarifyingQuestion`. -/
structure ClarificationCheck where
  needsClarification : Bool
  clarifyingQuestion : Option String
deriving DecidableEq, Repr

/-- One entry of `ResearchPlanSchema.tool_calls`; the `args` object is an
opaque JSON value, modelled as its serialized form. -/
structure ToolCall where
  tool : String
  args : String
deriving DecidableEq, Repr

/-- `ResearchPlanSchema { plan, tool_calls }`. -/
structure ResearchPlan where
  plan : List String
  tool_calls : List ToolCall
deriving DecidableEq, Repr

/-- The fields of `StructuredResponse<T>` (src/ai-tools.ts) that the actor
consumes: `success`, `structuredResult` (null ↦ `none`) and `error`. -/
structure StructuredResponse (α : Type) where
  success : Bool
  structuredResult : Option α
  error : Option String
deriving DecidableEq, Repr

/-- The guard `r.success && r.structuredResult ? r.structuredResult :
undefined` applied to a `StructuredResponse`. -/
def decisionOf {α : Type} (r : StructuredResponse α) : Option α :=
  if r.success then r.structuredResult else none

/-- The value stored in one slot of `toolResults`: either the adapter's
returned value (opaque) or the substituted `{ error: message }` object. -/
inductive ToolValue where
  | val (v : String)
  | errObj (message : String)
deriving DecidableEq, Repr

/-- One entry of the accumulated `toolResults` array: `{ tool, result }`. -/
structure ToolResult where
  tool : String
  result : ToolValue
deriving DecidableEq, Repr

/-- The normalized plan surfaced in the response object:
`{ steps: plan.plan, toolCalls }`. -/
structure NormalizedPlan where
  steps : List String
  toolCalls : List ToolCall
deriving DecidableEq, Repr

/-- Progress events pushed by `sendUpdate(type, payload)`, with the payload
components the proofs observe. -/
inductive Event where
  | status (message : String)
  | clarification_needed (question : String)
  | rag_result (context : String)
  | plan_created (plan : ResearchPlan)
  | tool_start (tool : String) (args : String)
  | tool_end (tool : String) (result : ToolValue)
  | final_response (response : String)
  | error (message : String)
  | session_started
deriving DecidableEq, Repr

/-- One observable action of a turn, in execution order: a `sendUpdate`
emission, a `messageHistory.push`, a storage `put`/`delete`, or a
`logTransaction` audit write. -/
inductive Effect where
  | emit (e : Event)
  | appendHistory (m : AgentMessage)
  | putAwaiting (b : Bool)
  | putContext (c : ClarificationContext)
  | deleteAwaiting
  | deleteContext
  | audit (kind : String)
deriving DecidableEq, Repr

/-- The progress events of a trace, in emission order. -/
def eventsOf (tr : List Effect) : List Event :=
  tr.filterMap fun e =>
    match e with
    | .emit ev => some ev
    | _ => none

/-! ## Knowledge Retriever (src/tools/rag_tool.ts, src/data/dal.ts) -/

/-- The projection of a Vectorize match consumed by the RAG tool
(`VectorQueryResult` in src/data/vectorize_service.ts): the string `id` and
the numeric `score`.  A JS number is modelled as `Option ℚ`, `none` standing
for a non-finite value (`Number.isFinite` false); the unused `values`,
`namespace` and `metadata` fields are omitted. -/
structure VectorQueryResult where
  id : String
  score : Option ℚ
deriving DecidableEq, Repr

/-- The columns of `CuratedKnowledge` (src/data/dal.ts) that
`searchKnowledgeBase` reads; the remaining audit columns are omitted. -/
structure CuratedKnowledge where
  id : Int
  title : String
  content : String
  source_url : Option String
  tags : Option String
deriving DecidableEq, Repr

/-- `Number.parseInt(s, 10)`: skip leading whitespace, optional sign, then
the longest digit run; `none` (NaN) when no digit follows. -/
def parseIntJs (s : String) : Option Int :=
  let cs := s.data.dropWhile Char.isWhitespace
  let core : List Char → Option Nat := fun l =>
    match l.takeWhile Char.isDigit with
    | [] => none
    | ds => some (ds.foldl (fun a c => a * 10 + (c.toNat - 48)) 0)
  match cs with
  | '-' :: rest => (core rest).map fun n => -(n : Int)
  | '+' :: rest => (core rest).map fun n => (n : Int)
  | _ => (core cs).map fun n => (n : Int)

/-- `matches.map(m => parseInt(m.id, 10)).filter(Number.isFinite)
.filter((v, i, a) => a.indexOf(v) === i)`: numeric ids, first occurrence
kept. -/
def uniqueIdsOf (ms : List VectorQueryResult) : List Int :=
  let parsed := ms.filterMap fun m => parseIntJs m.id
  (parsed.enum.filter fun p => parsed.indexOf p.2 = p.1).map Prod.snd

/-- `new Map(records.map(r => [r.id, r])).get(id)`: the map is built in list
order with later entries overwriting earlier ones, so lookup returns the last
record carrying the id. -/
def recordLookup (records : List CuratedKnowledge) (id : Int) : Option CuratedKnowledge :=
  records.reverse.find? fun r => r.id == id

/-- `score.toFixed(3)` for a finite score, rendered from the rational model
(rounding to the nearest thousandth; the exact IEEE-754 decimal rendering is
abstracted). -/
def formatFixed3 (q : ℚ) : String :=
  let n : Int := round (q * 1000)
  let sign := if n < 0 then "-" else ""
  let a := n.natAbs
  let frac := a % 1000
  let pad := if frac < 10 then "00" else if frac < 100 then "0" else ""
  sign ++ toString (a / 1000) ++ "." ++ pad ++ toString frac

/-- The section built for one enumerated match in the `for (const [index,
match] of matches.entries())` loop: `none` when the match's id is non-numeric
or has no hydrated record (the loop `continue`s). -/
def sectionOf (records : List CuratedKnowledge) (index : Nat)
    (m : VectorQueryResult) : Option String :=
  match parseIntJs m.id with
  | none => none
  | some id =>
    match recordLookup records id with
    | none => none
    | some record =>
      let header := s!"({index + 1}) {record.title}"
      let sourceParts : List String :=
        match record.source_url with
        | some u => if u = "" then [] else [s!"Source: {u}"]
        | none => []
      let tagParts : List String :=
        match record.tags with
        | some t => if t = "" then [] else [s!"Tags: {t}"]
        | none => []
      let metadataParts := sourceParts ++ tagParts
      let metadataLine :=
        if metadataParts = [] then "" else "\n" ++ String.intercalate " | " metadataParts
      let scoreLine :=
        match m.score with
        | some sc => "\nRelevance Score: " ++ formatFixed3 sc
        | none => ""
      some (header ++ metadataLine ++ scoreLine ++ "\n" ++ record.content)

/-- The `sections` accumulated by the formatting loop. -/
def sectionsOf (ms : List VectorQueryResult)
    (records : List CuratedKnowledge) : List String :=
  ms.enum.filterMap fun p => sectionOf records p.1 p.2

/-- Oracle for the Retriever's two external calls: the vector
similarity query (`vectorizeService.query`) and the D1 read issued by
`getCuratedKnowledgeByIds` (`stmt.bind(...).all()` plus row mapping);
`Except.error` is a thrown/rejected call. -/
structure RagOracle where
  vectorQuery : String → Except String (List VectorQueryResult)
  dbAll : List Int → Except String (List CuratedKnowledge)

/-- `DataAccessLayer.getCuratedKnowledgeByIds`: short-circuits to `[]` on an
empty id list, otherwise performs the D1 query. -/
def getCuratedKnowledgeByIds (o : RagOracle) (ids : List Int) :
    Except String (List CuratedKnowledge) :=
  if ids = [] then .ok [] else o.dbAll ids

/-- Fallback for a throwing vector index. -/
def ragFallbackIndexError : String :=
  "No curated knowledge could be retrieved due to an internal error."

/-- Fallback for an empty match list. -/
def ragFallbackNoMatches : String :=
  "No curated knowledge matched the query."

/-- Fallback when no match id parses to a number. -/
def ragFallbackNoIds : String :=
  "Related knowledge was found, but no retrievable document identifiers were provided."

/-- Fallback when the store hydrates no records. -/
def ragFallbackNoRecords : String :=
  "No curated knowledge records were found for the retrieved identifiers."

/-- Fallback when no section could be formatted. -/
def ragFallbackNoSections : String :=
  "No curated knowledge could be formatted for this query."

/-- `RAGTool.searchKnowledgeBase`.  Only the vector query sits inside a
try/catch; the hydration call is unguarded, so its exception propagates
(`Except.error`). -/
def searchKnowledgeBase (o : RagOracle) (query : String) : Except String String :=
  match o.vectorQuery query with
  | .error _ => .ok ragFallbackIndexError
  | .ok ms =>
    if ms = [] then .ok ragFallbackNoMatches
    else
      let uniqueIds := uniqueIdsOf ms
      if uniqueIds = [] then .ok ragFallbackNoIds
      else
        match getCuratedKnowledgeByIds o uniqueIds with
        | .error e => .error e
        | .ok records =>
          if records = [] then .ok ragFallbackNoRecords
          else
            let sections := sectionsOf ms records
            if sections = [] then .ok ragFallbackNoSections
            else .ok (String.intercalate "\n\n" sections)

/-! ## Session Orchestrator (`ChatSessionActor.handleUserQuery`)

One oracle field per awaited external call, in program order; `Except.error`
is a rejected promise (a thrown exception at that await).  The prompt strings
fed to the model calls are consumed only by the oracles and are not
materialized.  The `sessionId` is threaded unchanged by the source and is
dropped from the modelled result object. -/

/-- The external-call outcomes one `handleUserQuery` invocation consumes:
the five `logTransaction` D1 writes, the two `analyzeText` structured calls,
the `searchKnowledgeBase` call, the per-index `executeTool` invocation
(`Except.error m` = adapter threw, `m` its `(error as Error).message`), and
the `env.AI.run` synthesis call returning `{ response?: string }`. -/
structure Oracle where
  logUserQuery : Except String Unit
  clarify : StructuredResponse ClarificationCheck
  rag : Except String String
  logErrorCreatePlan : Except String Unit
  logCreatePlan : Except String Unit
  plan : StructuredResponse ResearchPlan
  tool : Nat → Except (Option String) ToolValue
  logToolRun : Nat → Except String Unit
  synth : Except String (Option String)
  logFinalResponse : Except String Unit

/-- The `clarification` metadata of the response object. -/
structure Clarification where
  needed : Bool
  question : Option String
deriving DecidableEq, Repr

/-- The response object of `handleUserQuery` (minus the threaded
`sessionId`): `{response, plan?, tool_results?, clarification, error?}`. -/
structure TurnResult where
  response : String
  plan : Option NormalizedPlan
  tool_results : Option (List ToolResult)
  clarification : Clarification
  error : Option String
deriving DecidableEq, Repr

/-- Everything one turn produces: the session state after the turn, the
ordered effect trace, and the returned response object. -/
structure TurnOutcome where
  state : SessionState
  trace : List Effect
  result : TurnResult
deriving DecidableEq, Repr

/-- The `getOriginalQuery` closure: the stored original query when truthy,
else the first user message of the history, else the incoming query. -/
def getOriginalQuery (ctx : Option ClarificationContext)
    (hist : List AgentMessage) (query : String) : String :=
  let fromHist : String :=
    match hist.find? fun m => m.role == Role.user with
    | some m => m.content
    | none => query
  match ctx with
  | some c => if c.originalQuery = "" then fromHist else c.originalQuery
  | none => fromHist

/-- The `formatFinalQuery` closure. -/
def formatFinalQuery (original : String) (clarifications : List String) : String :=
  if clarifications = [] then original
  else
    let formatted := String.intercalate " "
      (clarifications.enum.map fun p => s!"({p.1 + 1}) \"{p.2}\"")
    s!"Original question was: \"{original}\". The user provided additional clarification(s): {formatted}."

/-- Lines 180–207: read the awaiting flag, fold a pending clarification
round into the effective query, and carry the updated context. -/
def computeFinalQuery (st : SessionState) (query : String) :
    String × Option ClarificationContext :=
  if st.awaitingClarification then
    let ctx0 := st.clarificationContext
    let originalQuery := getOriginalQuery ctx0 st.messageHistory query
    let combined := (ctx0.map ClarificationContext.clarifications).getD [] ++ [query]
    (formatFinalQuery originalQuery combined, some ⟨originalQuery, combined⟩)
  else (query, none)

/-- The generic question substituted when the gate asks for clarification
without question text. -/
def clarificationFallbackQuestion : String :=
  "Could you please provide more details about what you need?"

/-- `clarificationDecision.clarifyingQuestion?.trim() || fallback`. -/
def clarifyQuestion (d : ClarificationCheck) : String :=
  match d.clarifyingQuestion with
  | some s => if s.trim = "" then clarificationFallbackQuestion else s.trim
  | none => clarificationFallbackQuestion

/-- The fixed string substituted when the synthesis model yields no
`response` text. -/
def synthesisFallback : String := "Failed to generate a response."

/-- `ChatSessionActor.runSynthesis`: no try/catch — a thrown `AI.run` error
propagates; an `.ok` result substitutes the fallback for a missing or empty
`response` field (`response || fallback`). -/
def runSynthesis (ai : Except String (Option String)) : Except String String :=
  match ai with
  | .error e => .error e
  | .ok r =>
    .ok (match r with
      | some s => if s = "" then synthesisFallback else s
      | none => synthesisFallback)

/-- The slot value recorded for invocation `i`: the adapter's value, or
`{ error: message ?? 'Tool execution failed.' }` when it threw. -/
def toolOutcome (o : Oracle) (i : Nat) : ToolValue :=
  match o.tool i with
  | .ok v => v
  | .error m => .errObj (m.getD "Tool execution failed.")

/-- The message of the generic top-level catch. -/
def unexpectedErrorMessage : String :=
  "An unexpected error occurred while processing the query."

/-- The top-level `catch` of `handleUserQuery`: emit an `error` event, write
the `UNEXPECTED_ERROR` audit record, and return the generic response with the
thrown detail; the session state at the throw point is left as-is. -/
def turnCatch (st : SessionState) (tr : List Effect) (detail : String) : TurnOutcome :=
  { state := st
    trace := tr ++ [.emit (.error unexpectedErrorMessage), .audit "UNEXPECTED_ERROR"]
    result := { response := unexpectedErrorMessage, plan := none, tool_results := none,
                clarification := ⟨false, none⟩, error := some detail } }

/-- The catch message around the orchestrator's `searchKnowledgeBase` call. -/
def ragCatchMessage : String :=
  "No curated knowledge could be retrieved due to an internal error."

/-- `knownContext` after the guarded RAG call. -/
def ragContext (o : Oracle) : String :=
  match o.rag with
  | .ok s => s
  | .error _ => ragCatchMessage

/-- The fixed response of the plan-failure branch. -/
def planFailMessage : String := "I'm sorry, I was unable to create a research plan."

/-- The `for (const call of plan.tool_calls)` dispatch loop, from invocation
index `i` with accumulated results and trace: per call emit `tool_start`,
record the (possibly error-substituted) result, emit `tool_end`, then write
the `TOOL_RUN_<TOOL>` audit record; a thrown audit write aborts to the
top-level catch with the trace so far. -/
def dispatchLoop (o : Oracle) :
    List ToolCall → Nat → List ToolResult → List Effect →
    Except (List Effect × String) (List ToolResult × List Effect)
  | [], _, acc, tr => .ok (acc, tr)
  | c :: rest, i, acc, tr =>
    let tr1 := tr ++ [.emit (.tool_start c.tool c.args)]
    let result := toolOutcome o i
    let acc1 := acc ++ [⟨c.tool, result⟩]
    let tr2 := tr1 ++ [.emit (.tool_end c.tool result)]
    match o.logToolRun i with
    | .error d => .error (tr2, d)
    | .ok _ => dispatchLoop o rest (i + 1) acc1 (tr2 ++ [.audit ("TOOL_RUN_" ++ c.tool.toUpper)])

/-- Lines 246–332: the retrieval → planning → dispatch → synthesis pipeline,
entered after the clarification keys were deleted; `st` is the session state
with the wait-state cleared and the user message appended. -/
def pipeline (o : Oracle) (st : SessionState) (tr : List Effect) : TurnOutcome :=
  let tr1 := tr ++ [.emit (.status "Searching knowledge base...")]
  let knownContext := ragContext o
  let tr2 := tr1 ++ [.emit (.rag_result knownContext)]
  let tr3 := tr2 ++ [.emit (.status "Creating research plan...")]
  match decisionOf o.plan with
  | none =>
    match o.logErrorCreatePlan with
    | .error d => turnCatch st tr3 d
    | .ok _ =>
      { state := st
        trace := tr3 ++ [.audit "ERROR_CREATE_PLAN", .emit (.error planFailMessage)]
        result := { response := planFailMessage, plan := none, tool_results := none,
                    clarification := ⟨false, none⟩, error := o.plan.error } }
  | some p =>
    match o.logCreatePlan with
    | .error d => turnCatch st tr3 d
    | .ok _ =>
      let tr4 := tr3 ++ [.audit "CREATE_PLAN", .emit (.plan_created p)]
      match dispatchLoop o p.tool_calls 0 [] tr4 with
      | .error ed => turnCatch st ed.1 ed.2
      | .ok done =>
        let toolResults := done.1
        let tr6 := done.2 ++ [.emit (.status "Synthesizing final answer...")]
        match runSynthesis o.synth with
        | .error d => turnCatch st tr6 d
        | .ok finalResponse =>
          match o.logFinalResponse with
          | .error d => turnCatch st tr6 d
          | .ok _ =>
            { state := { st with
                messageHistory := st.messageHistory ++ [⟨.assistant, finalResponse⟩] }
              trace := tr6 ++ [.audit "FINAL_RESPONSE",
                .appendHistory ⟨.assistant, finalResponse⟩,
                .emit (.final_response finalResponse)]
              result := { response := finalResponse
                          plan := some ⟨p.plan, p.tool_calls.map fun c => ⟨c.tool, c.args⟩⟩
                          tool_results := some toolResults
                          clarification := ⟨false, none⟩, error := none } }

/-- `ChatSessionActor.handleUserQuery` as one turn: audit the incoming
query, fold pending clarifications, append the user message, consult the
gate, then either take the clarification branch (emit the question, append
it, persist the wait-state, return) or clear the wait-state and run the
pipeline.  Any `Except.error` of an unguarded await routes to `turnCatch`. -/
def handleUserQuery (st : SessionState) (query : String) (o : Oracle) : TurnOutcome :=
  match o.logUserQuery with
  | .error d => turnCatch st [] d
  | .ok _ =>
    let tr0 := [Effect.audit "USER_QUERY"]
    let fq := computeFinalQuery st query
    let st1 : SessionState :=
      { st with messageHistory := st.messageHistory ++ [⟨.user, query⟩] }
    let tr1 := tr0 ++ [.appendHistory ⟨.user, query⟩]
    match decisionOf o.clarify with
    | some d =>
      if d.needsClarification then
        let question := clarifyQuestion d
        let ctxStore := fq.2.getD ⟨fq.1, []⟩
        { state := { messageHistory := st1.messageHistory ++ [⟨.assistant, question⟩]
                     awaitingClarification := true
                     clarificationContext := some ctxStore }
          trace := tr1 ++ [.emit (.clarification_needed question),
            .appendHistory ⟨.assistant, question⟩, .putAwaiting true, .putContext ctxStore]
          result := { response := question, plan := none, tool_results := none,
                      clarification := ⟨true, some question⟩, error := none } }
      else
        pipeline o { st1 with awaitingClarification := false, clarificationContext := none }
          (tr1 ++ [.deleteAwaiting, .deleteContext])
    | none =>
      pipeline o { st1 with awaitingClarification := false, clarificationContext := none }
        (tr1 ++ [.deleteAwaiting, .deleteContext])

/-! ## WebSocket message handler (`ChatSessionActor.handleWebSocket`) -/

/-- Classification of one inbound frame as the handler's guards see it:
`event.data` not a string (coerced to `''`), the empty string, a non-empty
string `JSON.parse` rejects, a parsed object whose `query` field is absent or
empty, or a parsed object with a non-empty string `query`. -/
inductive WsMessage where
  | notString
  | emptyString
  | unparsable (raw : String)
  | noQuery
  | query (q : String)
deriving DecidableEq, Repr

/-- The error frame sent for non-string data, empty data, or a JSON parse
failure. -/
def invalidFormatFrame : String := "Invalid message format"

/-- The error frame sent when the parsed message lacks a truthy `query`. -/
def queryRequiredFrame : String := "Query is required"

/-- What the `message` listener does with one frame: the session state
afterwards, the raw error frames sent directly on the socket, and the started
turn (if any). -/
structure WsReaction where
  state : SessionState
  frames : List String
  turn : Option TurnOutcome
deriving DecidableEq, Repr

/-- The `message` event listener of `handleWebSocket`: malformed frames are
answered with exactly one error frame and no turn; a frame with a non-empty
`query` starts `handleUserQuery`. -/
def webSocketOnMessage (st : SessionState) (o : Oracle) : WsMessage → WsReaction
  | .notString => ⟨st, [invalidFormatFrame], none⟩
  | .emptyString => ⟨st, [invalidFormatFrame], none⟩
  | .unparsable _ => ⟨st, [invalidFormatFrame], none⟩
  | .noQuery => ⟨st, [queryRequiredFrame], none⟩
  | .query q =>
    let out := handleUserQuery st q o
    ⟨out.state, [], some out⟩

/-! ## Common concrete data for witnesses -/

/-- An oracle on which every external call succeeds. -/
def oracleOk : Oracle :=
  { logUserQuery := .ok ()
    clarify := ⟨true, some ⟨false, none⟩, none⟩
    rag := .ok "Known: deploy with wrangler."
    logErrorCreatePlan := .ok ()
    logCreatePlan := .ok ()
    plan := ⟨true, some ⟨["look it up"], [⟨"sandbox", "command:ls"⟩]⟩, none⟩
    tool := fun _ => .ok (.val "ok-output")
    logToolRun := fun _ => .ok ()
    synth := .ok (some "Final answer.")
    logFinalResponse := .ok () }

/-- An oracle whose gate asks for clarification without question text (the
generic fallback question is substituted). -/
def oracleClarify : Oracle :=
  { oracleOk with clarify := ⟨true, some ⟨true, none⟩, none⟩ }

/-- `oracleClarify` with failing plan, dispatch and synthesis oracles. -/
def oracleClarifyBroken : Oracle :=
  { oracleClarify with
    plan := ⟨false, none, some "no plan"⟩
    tool := fun _ => .error none
    synth := .error "down" }

/-- An oracle whose gate call is malformed: the structured call failed, so
`success = false` and no structured result is available. -/
def oracleGateFailed : Oracle :=
  { oracleOk with
    clarify := ⟨false, none, some "All models failed to generate a valid structured response."⟩ }

/-- An oracle whose synthesis `AI.run` call throws. -/
def oracleSynthThrow : Oracle := { oracleOk with synth := .error "AI inference failed" }

/-- A Retriever oracle whose vector query returns one numeric match but whose
D1 hydration read rejects. -/
def ragOracleDbThrow : RagOracle :=
  { vectorQuery := fun _ => .ok [⟨"1", none⟩]
    dbAll := fun _ => .error "D1_ERROR" }

/-- A Retriever oracle whose vector index query throws. -/
def ragOracleIdxThrow : RagOracle :=
  { vectorQuery := fun _ => .error "index unavailable"
    dbAll := fun _ => .ok [] }

/-- A Retriever oracle on which every call succeeds with useful data. -/
def ragOracleOk : RagOracle :=
  { vectorQuery := fun _ => .ok [⟨"7", none⟩]
    dbAll := fun _ => .ok [⟨7, "Title", "Content", none, none⟩] }

/-- The session states reachable from a fresh session by running turns. -/
inductive Reachable : SessionState → Prop where
  | init : Reachable SessionState.init
  | step (st : SessionState) (q : String) (o : Oracle) :
      Reachable st → Reachable (handleUserQuery st q o).state

/-- The session after `n` consecutive clarification turns. -/
def clarSt : Nat → SessionState
  | 0 => SessionState.init
  | n + 1 => (handleUserQuery (clarSt n) "more" oracleClarify).state

/-- Whether an event is a `status` event. -/
def isStatus : Event → Bool
  | .status _ => true
  | _ => false

/-- Whether a list is a concatenation of `tool_start`/`tool_end` pairs with
matching tool names. -/
def pairsOnly : List Event → Bool
  | [] => true
  | .tool_start t _ :: .tool_end t' _ :: rest => t = t' && pairsOnly rest
  | _ => false

/-- The claimed normal-turn event grammar, executably:
`(status)* plan_created (tool_start tool_end)* final_response`, with no other
event types interleaved. -/
def matchesClaimedNormal (evs : List Event) : Bool :=
  match evs.dropWhile isStatus with
  | .plan_created _ :: rest =>
    match rest.reverse with
    | .final_response _ :: midrev => pairsOnly midrev.reverse
    | _ => false
  | _ => false

/-! ## Theorems -/

/-- The spec's strict session invariant:
`awaitingClarification == true ⇔ clarificationContext present`. -/
def SessionInv (st : SessionState) : Prop :=
  st.awaitingClarification = true ↔ st.clarificationContext.isSome

instance (st : SessionState) : Decidable (SessionInv st) := by
  unfold SessionInv; infer_instance

/-- The pipeline touches neither clarification key: it inherits both from
the state it is entered with. -/
lemma pipeline_state_flags (o : Oracle) (st : SessionState) (tr : List Effect) :
    (pipeline o st tr).state.awaitingClarification = st.awaitingClarification ∧
    (pipeline o st tr).state.clarificationContext = st.clarificationContext := by
  unfold pipeline turnCatch
  dsimp only
  split
  · split <;> exact ⟨rfl, rfl⟩
  · split
    · exact ⟨rfl, rfl⟩
    · try dsimp only
      split
      · exact ⟨rfl, rfl⟩
      · try dsimp only
        split
        · exact ⟨rfl, rfl⟩
        · split <;> exact ⟨rfl, rfl⟩

/-- A pipeline entered with the wait-state cleared ends with the invariant
holding. -/
lemma pipeline_inv (o : Oracle) (hist : List AgentMessage) (tr : List Effect) :
    SessionInv (pipeline o ⟨hist, false, none⟩ tr).state := by
  have hp := pipeline_state_flags o ⟨hist, false, none⟩ tr
  simp [SessionInv, hp.1, hp.2]

/-- Every turn — clarification branch, plan-failure branch, completed
pipeline, and every top-level-catch path — leaves `awaitingClarification`
true exactly when a `clarificationContext` is persisted, given the invariant
held when the turn began. -/
lemma handleUserQuery_preserves_inv (st : SessionState) (q : String) (o : Oracle)
    (h : SessionInv st) : SessionInv (handleUserQuery st q o).state := by
  unfold handleUserQuery
  split
  · simpa [turnCatch] using h
  · dsimp only
    split
    · split
      · simp [SessionInv]
      · exact pipeline_inv o _ _
    · exact pipeline_inv o _ _

/-- C1: in every session state reachable by running turns (through the
clarification branch, the plan-failure branch, or the top-level catch), the
persisted flag `awaitingClarification` is true iff a persisted
`clarificationContext` is present. -/
theorem awaiting_iff_context (st : SessionState) (h : Reachable st) : SessionInv st := by
  induction h with
  | init => simp [SessionInv, SessionState.init]
  | step st' q o _ ih => exact handleUserQuery_preserves_inv st' q o ih

/-- C1 witness: the invariant holds concretely after a clarification turn on
a fresh session. -/
theorem awaiting_iff_context_witness :
    SessionInv ((handleUserQuery SessionState.init "hello" oracleClarify).state) :=
  awaiting_iff_context _
    (Reachable.step SessionState.init "hello" oracleClarify Reachable.init)

/-- Full outcome of a turn whose gate signals clarification: the question is
emitted, appended, the wait-state persisted, and the turn returns before any
pipeline stage. -/
lemma handleUserQuery_clarify (st : SessionState) (q : String) (o : Oracle)
    (d : ClarificationCheck)
    (hlog : o.logUserQuery = .ok ())
    (hd : decisionOf o.clarify = some d)
    (hneed : d.needsClarification = true) :
    handleUserQuery st q o =
      { state :=
          { messageHistory := st.messageHistory ++
              [⟨.user, q⟩, ⟨.assistant, clarifyQuestion d⟩]
            awaitingClarification := true
            clarificationContext :=
              some ((computeFinalQuery st q).2.getD ⟨(computeFinalQuery st q).1, []⟩) }
        trace := [.audit "USER_QUERY", .appendHistory ⟨.user, q⟩,
          .emit (.clarification_needed (clarifyQuestion d)),
          .appendHistory ⟨.assistant, clarifyQuestion d⟩,
          .putAwaiting true,
          .putContext ((computeFinalQuery st q).2.getD ⟨(computeFinalQuery st q).1, []⟩)]
        result := { response := clarifyQuestion d, plan := none, tool_results := none,
                    clarification := ⟨true, some (clarifyQuestion d)⟩, error := none } } := by
  simp [handleUserQuery, hlog, hd, hneed]

/-- C4 (amended): on a gate-signalled clarification the orchestrator, after
the initial audit record and user-message append, performs in this order:
emit `clarification_needed`, append the question to the transcript, persist
`awaitingClarification = true`, persist the clarification context — and
returns with no retrieval, planning, dispatch, or synthesis effect. -/
theorem clarification_branch_effects (st : SessionState) (q : String) (o : Oracle)
    (d : ClarificationCheck)
    (hlog : o.logUserQuery = .ok ())
    (hd : decisionOf o.clarify = some d)
    (hneed : d.needsClarification = true) :
    (handleUserQuery st q o).trace =
      [.audit "USER_QUERY", .appendHistory ⟨.user, q⟩,
       .emit (.clarification_needed (clarifyQuestion d)),
       .appendHistory ⟨.assistant, clarifyQuestion d⟩,
       .putAwaiting true,
       .putContext ((computeFinalQuery st q).2.getD ⟨(computeFinalQuery st q).1, []⟩)] := by
  rw [handleUserQuery_clarify st q o d hlog hd hneed]

/-- C4 witness: the clarification-branch trace at a concrete turn. -/
theorem clarification_branch_effects_witness :
    (handleUserQuery SessionState.init "hello" oracleClarify).trace =
      [.audit "USER_QUERY", .appendHistory ⟨.user, "hello"⟩,
       .emit (.clarification_needed clarificationFallbackQuestion),
       .appendHistory ⟨.assistant, clarificationFallbackQuestion⟩,
       .putAwaiting true, .putContext ⟨"hello", []⟩] := by
  rw [clarification_branch_effects SessionState.init "hello" oracleClarify
    ⟨true, none⟩ rfl rfl rfl]
  rfl

/-- C4 counterexample: the claimed order (persist, then append, then emit) is
false — at a concrete clarification turn the `clarification_needed` emission
precedes the `awaitingClarification` write, not the other way round. -/
theorem clarification_claimed_persist_first_false :
    ((handleUserQuery SessionState.init "hello" oracleClarify).trace.indexOf
        (Effect.emit (.clarification_needed clarificationFallbackQuestion)) <
      (handleUserQuery SessionState.init "hello" oracleClarify).trace.indexOf
        (Effect.putAwaiting true)) ∧
    ¬ ((handleUserQuery SessionState.init "hello" oracleClarify).trace.indexOf
        (Effect.putAwaiting true) <
      (handleUserQuery SessionState.init "hello" oracleClarify).trace.indexOf
        (Effect.emit (.clarification_needed clarificationFallbackQuestion))) := by
  decide

/-- C7: a turn whose gate signals clarification never consults the Plan
Synthesizer or the Capability Dispatcher — its entire outcome is unchanged
under arbitrary replacement of the plan, dispatch, synthesis and retrieval
oracles. -/
theorem clarification_skips_plan_and_dispatch (st : SessionState) (q : String)
    (o o' : Oracle) (d : ClarificationCheck)
    (h1 : o.logUserQuery = .ok ()) (h2 : o'.logUserQuery = .ok ())
    (hc : o'.clarify = o.clarify)
    (hd : decisionOf o.clarify = some d)
    (hneed : d.needsClarification = true) :
    handleUserQuery st q o = handleUserQuery st q o' := by
  rw [handleUserQuery_clarify st q o d h1 hd hneed,
    handleUserQuery_clarify st q o' d h2 (by rw [hc]; exact hd) hneed]

/-- C7 witness: a clarification turn is unchanged when the plan, tool and
synthesis oracles are replaced by failing ones. -/
theorem clarification_skips_plan_and_dispatch_witness :
    handleUserQuery SessionState.init "hi" oracleClarify =
      handleUserQuery SessionState.init "hi" oracleClarifyBroken :=
  clarification_skips_plan_and_dispatch SessionState.init "hi" _ _
    ⟨true, none⟩ rfl rfl rfl rfl rfl

/-- `dispatchLoop` under reliable audit writes, from an arbitrary start index
and accumulators: every invocation is executed in plan order, each slot
holding the adapter value or the substituted error object. -/
lemma dispatchLoop_ok (o : Oracle) (h : ∀ i, o.logToolRun i = .ok ()) :
    ∀ (calls : List ToolCall) (i : Nat) (acc : List ToolResult) (tr : List Effect),
    dispatchLoop o calls i acc tr =
      .ok (acc ++ (calls.enumFrom i).map (fun jc => ⟨jc.2.tool, toolOutcome o jc.1⟩),
        tr ++ (calls.enumFrom i).flatMap fun jc =>
          [.emit (.tool_start jc.2.tool jc.2.args),
           .emit (.tool_end jc.2.tool (toolOutcome o jc.1)),
           .audit ("TOOL_RUN_" ++ jc.2.tool.toUpper)]) := by
  intro calls
  induction calls with
  | nil => intro i acc tr; simp [dispatchLoop]
  | cons c rest ih =>
    intro i acc tr
    simp only [dispatchLoop, h i]
    rw [ih (i + 1)]
    simp [List.enumFrom_cons, List.append_assoc]

/-- The pipeline on a fully successful normal path: full outcome. -/
lemma pipeline_normal (o : Oracle) (st : SessionState) (tr : List Effect)
    (p : ResearchPlan) (resp : String)
    (hplan : decisionOf o.plan = some p)
    (hlogcp : o.logCreatePlan = .ok ())
    (htool : ∀ i, o.logToolRun i = .ok ())
    (hsynth : runSynthesis o.synth = .ok resp)
    (hlogfr : o.logFinalResponse = .ok ()) :
    pipeline o st tr =
      { state := { st with messageHistory := st.messageHistory ++ [⟨.assistant, resp⟩] }
        trace := tr ++ [.emit (.status "Searching knowledge base..."),
            .emit (.rag_result (ragContext o)),
            .emit (.status "Creating research plan..."),
            .audit "CREATE_PLAN", .emit (.plan_created p)]
          ++ (p.tool_calls.enum.flatMap fun jc =>
              [.emit (.tool_start jc.2.tool jc.2.args),
               .emit (.tool_end jc.2.tool (toolOutcome o jc.1)),
               .audit ("TOOL_RUN_" ++ jc.2.tool.toUpper)])
          ++ [.emit (.status "Synthesizing final answer..."), .audit "FINAL_RESPONSE",
              .appendHistory ⟨.assistant, resp⟩, .emit (.final_response resp)]
        result := { response := resp
                    plan := some ⟨p.plan, p.tool_calls.map fun c => ⟨c.tool, c.args⟩⟩
                    tool_results := some (p.tool_calls.enum.map fun jc =>
                      ⟨jc.2.tool, toolOutcome o jc.1⟩)
                    clarification := ⟨false, none⟩
                    error := none } } := by
  unfold pipeline
  simp only [hplan, hlogcp]
  rw [dispatchLoop_ok o htool]
  simp only [hsynth, hlogfr]
  simp [List.enum, List.append_assoc]

/-- A turn whose gate does not request clarification is the pipeline run on
the cleared state after the audit record, user append and key deletes. -/
lemma handleUserQuery_normal (st : SessionState) (q : String) (o : Oracle)
    (hlog : o.logUserQuery = .ok ())
    (hgate : ∀ d, decisionOf o.clarify = some d → d.needsClarification = false) :
    handleUserQuery st q o =
      pipeline o ⟨st.messageHistory ++ [⟨.user, q⟩], false, none⟩
        [.audit "USER_QUERY", .appendHistory ⟨.user, q⟩, .deleteAwaiting, .deleteContext] := by
  unfold handleUserQuery
  simp only [hlog]
  cases hdec : decisionOf o.clarify with
  | none => rfl
  | some d =>
    have hfalse := hgate d hdec
    simp [hfalse]

lemma eventsOf_append (a b : List Effect) :
    eventsOf (a ++ b) = eventsOf a ++ eventsOf b := by
  simp [eventsOf, List.filterMap_append]

lemma eventsOf_flatMap {α : Type} (l : List α) (f : α → List Effect) :
    eventsOf (l.flatMap f) = l.flatMap fun x => eventsOf (f x) := by
  induction l with
  | nil => rfl
  | cons x xs ih => simp [List.flatMap_cons, eventsOf_append, ih]

/-- C2 (amended): with a channel attached, a fully successful normal turn
emits exactly `status`, `rag_result`, `status`, `plan_created`, one
`tool_start`/`tool_end` pair per invocation in plan order, `status`,
`final_response` — the `rag_result` event and the pre-synthesis `status`
interleave with the claimed grammar; a clarification turn emits exactly
`clarification_needed` and nothing else (in particular no preceding
`status`). -/
theorem progress_event_order (st : SessionState) (q : String) (o : Oracle) :
    (∀ (p : ResearchPlan) (resp : String),
      o.logUserQuery = .ok () →
      (∀ d, decisionOf o.clarify = some d → d.needsClarification = false) →
      decisionOf o.plan = some p →
      o.logCreatePlan = .ok () →
      (∀ i, o.logToolRun i = .ok ()) →
      runSynthesis o.synth = .ok resp →
      o.logFinalResponse = .ok () →
      eventsOf (handleUserQuery st q o).trace =
        [.status "Searching knowledge base...", .rag_result (ragContext o),
         .status "Creating research plan...", .plan_created p]
        ++ (p.tool_calls.enum.flatMap fun jc =>
            [.tool_start jc.2.tool jc.2.args, .tool_end jc.2.tool (toolOutcome o jc.1)])
        ++ [.status "Synthesizing final answer...", .final_response resp]) ∧
    (∀ d : ClarificationCheck,
      o.logUserQuery = .ok () →
      decisionOf o.clarify = some d →
      d.needsClarification = true →
      eventsOf (handleUserQuery st q o).trace = [.clarification_needed (clarifyQuestion d)]) := by
  constructor
  · intro p resp hlog hgate hplan hlogcp htool hsynth hlogfr
    rw [handleUserQuery_normal st q o hlog hgate,
      pipeline_normal o _ _ p resp hplan hlogcp htool hsynth hlogfr]
    simp only [eventsOf_append, eventsOf_flatMap]
    simp [eventsOf]
  · intro d hlog hd hneed
    rw [handleUserQuery_clarify st q o d hlog hd hneed]
    simp [eventsOf]

/-- C2 witness: the concrete event sequence of a fully successful turn. -/
theorem progress_event_order_witness :
    eventsOf (handleUserQuery SessionState.init "how to deploy" oracleOk).trace =
      [.status "Searching knowledge base...", .rag_result "Known: deploy with wrangler.",
       .status "Creating research plan...",
       .plan_created ⟨["look it up"], [⟨"sandbox", "command:ls"⟩]⟩,
       .tool_start "sandbox" "command:ls", .tool_end "sandbox" (.val "ok-output"),
       .status "Synthesizing final answer...", .final_response "Final answer."] := by
  have h := (progress_event_order SessionState.init "how to deploy" oracleOk).1
    ⟨["look it up"], [⟨"sandbox", "command:ls"⟩]⟩ "Final answer." rfl
    (fun d hd => by rw [← Option.some.inj hd]) rfl rfl (fun i => rfl) rfl rfl
  simpa using h

/-- C2 counterexample: the claimed grammar
`(status)* plan_created (tool_start tool_end)* final_response` with no other
event types is false for a concrete fully successful normal turn — the
emitted sequence contains a `rag_result` event (and a `status` after the tool
pairs), so it does not match. -/
theorem progress_event_order_claim_false :
    (handleUserQuery SessionState.init "how to deploy" oracleOk).result.error = none ∧
    (handleUserQuery SessionState.init "how to deploy" oracleOk).result.plan.isSome = true ∧
    matchesClaimedNormal
      (eventsOf (handleUserQuery SessionState.init "how to deploy" oracleOk).trace) = false := by
  decide

/-- C6: the dispatcher executes the plan's invocations strictly sequentially
in plan order; an invocation whose adapter throws contributes
`{error: message}` at its own plan position and every subsequent invocation
is still executed (its oracle consulted at its own index). -/
theorem dispatcher_in_order_error_isolated (o : Oracle) (calls : List ToolCall)
    (h : ∀ i, o.logToolRun i = .ok ()) :
    dispatchLoop o calls 0 [] [] =
      .ok (calls.enum.map fun jc => ⟨jc.2.tool, toolOutcome o jc.1⟩,
        calls.enum.flatMap fun jc =>
          [.emit (.tool_start jc.2.tool jc.2.args),
           .emit (.tool_end jc.2.tool (toolOutcome o jc.1)),
           .audit ("TOOL_RUN_" ++ jc.2.tool.toUpper)]) := by
  rw [dispatchLoop_ok o h]
  simp [List.enum]

/-- C6 witness: with the first adapter throwing, the second invocation still
runs and the error object sits in slot 0. -/
theorem dispatcher_in_order_error_isolated_witness :
    dispatchLoop
      { oracleOk with tool := fun i => if i = 0 then .error (some "boom") else .ok (.val "later") }
      [⟨"sandbox", "a"⟩, ⟨"browser", "b"⟩] 0 [] [] =
      .ok ([⟨"sandbox", .errObj "boom"⟩, ⟨"browser", .val "later"⟩],
        [.emit (.tool_start "sandbox" "a"),
         .emit (.tool_end "sandbox" (.errObj "boom")),
         .audit ("TOOL_RUN_" ++ "sandbox".toUpper),
         .emit (.tool_start "browser" "b"),
         .emit (.tool_end "browser" (.val "later")),
         .audit ("TOOL_RUN_" ++ "browser".toUpper)]) := by
  rw [dispatcher_in_order_error_isolated _ _ (fun i => rfl)]
  rfl

lemma clarSt_reachable : ∀ n, Reachable (clarSt n)
  | 0 => .init
  | n + 1 => .step (clarSt n) "more" oracleClarify (clarSt_reachable n)

lemma clarSt_len (n : Nat) : (clarSt n).messageHistory.length = 2 * n := by
  induction n with
  | zero => rfl
  | succ k ih =>
    show (handleUserQuery (clarSt k) "more" oracleClarify).state.messageHistory.length = _
    rw [handleUserQuery_clarify (clarSt k) "more" oracleClarify ⟨true, none⟩ rfl rfl rfl]
    simp only [List.length_append, List.length_cons, List.length_nil]
    omega

/-- C3 counterexample: no fixed cap bounds the transcript — the code never
truncates `messageHistory`, and consecutive clarification turns grow it by
two entries each, so every proposed cap `N` is exceeded by a reachable
session. -/
theorem transcript_cap_false :
    ¬ ∃ N : Nat, ∀ st : SessionState, Reachable st → st.messageHistory.length ≤ N := by
  rintro ⟨N, hN⟩
  have h := hN (clarSt (N + 1)) (clarSt_reachable (N + 1))
  rw [clarSt_len] at h
  omega

lemma pipeline_append_only (o : Oracle) (st : SessionState) (tr : List Effect) :
    ∃ t, (pipeline o st tr).state.messageHistory = st.messageHistory ++ t ∧
      t.length ≤ 1 := by
  unfold pipeline turnCatch
  dsimp only
  split
  · split <;> exact ⟨[], by simp⟩
  · split
    · exact ⟨[], by simp⟩
    · try dsimp only
      split
      · exact ⟨[], by simp⟩
      · try dsimp only
        split
        · exact ⟨[], by simp⟩
        · split
          · exact ⟨[], by simp⟩
          · exact ⟨_, rfl, by simp⟩

/-- C3 (amended): the transcript is append-only — every turn extends
`messageHistory` with at most two entries (the user message and possibly one
assistant message) and never removes or reorders existing entries; no cap or
FIFO truncation is applied. -/
theorem transcript_append_only (st : SessionState) (q : String) (o : Oracle) :
    ∃ t, (handleUserQuery st q o).state.messageHistory = st.messageHistory ++ t ∧
      t.length ≤ 2 := by
  unfold handleUserQuery
  split
  · exact ⟨[], by simp [turnCatch]⟩
  · dsimp only
    split
    · split
      · rename_i d heq h
        exact ⟨[⟨.user, q⟩, ⟨.assistant, clarifyQuestion d⟩], by simp, by simp⟩
      · obtain ⟨t, ht, hl⟩ := pipeline_append_only o
          ⟨st.messageHistory ++ [⟨.user, q⟩], false, none⟩
          ([Effect.audit "USER_QUERY"] ++ [.appendHistory ⟨.user, q⟩]
            ++ [.deleteAwaiting, .deleteContext])
        refine ⟨⟨.user, q⟩ :: t, ?_, by simp; omega⟩
        rw [ht]
        simp
    · obtain ⟨t, ht, hl⟩ := pipeline_append_only o
        ⟨st.messageHistory ++ [⟨.user, q⟩], false, none⟩
        ([Effect.audit "USER_QUERY"] ++ [.appendHistory ⟨.user, q⟩]
          ++ [.deleteAwaiting, .deleteContext])
      refine ⟨⟨.user, q⟩ :: t, ?_, by simp; omega⟩
      rw [ht]
      simp

lemma runSynthesis_ok_ne_empty (x : Except String (Option String)) (r : String)
    (h : runSynthesis x = .ok r) : r ≠ "" := by
  unfold runSynthesis at h
  cases x with
  | error e => cases h
  | ok v =>
    cases v with
    | none =>
      injection h with h
      subst h
      decide
    | some s =>
      by_cases hs : s = ""
      · simp [hs] at h
        subst h
        decide
      · simp [hs] at h
        subst h
        exact hs

lemma clarifyQuestion_ne_empty (d : ClarificationCheck) : clarifyQuestion d ≠ "" := by
  unfold clarifyQuestion
  cases d.clarifyingQuestion with
  | none => decide
  | some s =>
    dsimp only
    split
    · decide
    · assumption

lemma unexpectedErrorMessage_ne_empty : unexpectedErrorMessage ≠ "" := by decide

lemma planFailMessage_ne_empty : planFailMessage ≠ "" := by decide

lemma pipeline_response_ne_empty (o : Oracle) (st : SessionState) (tr : List Effect) :
    (pipeline o st tr).result.response ≠ "" := by
  unfold pipeline turnCatch
  dsimp only
  split
  · split
    · exact unexpectedErrorMessage_ne_empty
    · exact planFailMessage_ne_empty
  · split
    · exact unexpectedErrorMessage_ne_empty
    · try dsimp only
      split
      · exact unexpectedErrorMessage_ne_empty
      · try dsimp only
        split
        · exact unexpectedErrorMessage_ne_empty
        · split
          · exact unexpectedErrorMessage_ne_empty
          · exact runSynthesis_ok_ne_empty o.synth _ (by assumption)

/-- C8 (amended): `runSynthesis` substitutes the fixed fallback only when the
model call returns without usable response text (missing or empty
`response`); a thrown model call propagates out of `runSynthesis` unchanged
(reaching the turn's top-level catch, which still returns a textual answer) —
and indeed every turn's response text is non-empty on every path. -/
theorem synthesis_fallback_and_propagation :
    (∀ e, runSynthesis (.error e) = .error e) ∧
    runSynthesis (.ok none) = .ok synthesisFallback ∧
    runSynthesis (.ok (some "")) = .ok synthesisFallback ∧
    (∀ s, s ≠ "" → runSynthesis (.ok (some s)) = .ok s) ∧
    (∀ (st : SessionState) (q : String) (o : Oracle),
      (handleUserQuery st q o).result.response ≠ "") := by
  refine ⟨fun e => rfl, rfl, by simp [runSynthesis], fun s hs => by simp [runSynthesis, hs], ?_⟩
  intro st q o
  unfold handleUserQuery
  split
  · exact unexpectedErrorMessage_ne_empty
  · dsimp only
    split
    · split
      · exact clarifyQuestion_ne_empty _
      · exact pipeline_response_ne_empty o _ _
    · exact pipeline_response_ne_empty o _ _

/-- C8 witness: a non-empty synthesized response is passed through. -/
theorem synthesis_fallback_and_propagation_witness :
    runSynthesis (.ok (some "All done.")) = .ok "All done." :=
  synthesis_fallback_and_propagation.2.2.2.1 "All done." (by decide)

/-- C8 counterexample: when the synthesis model call throws, the turn does
not return the synthesizer's fixed fallback — the error propagates to the
top-level catch, which returns the generic error message and surfaces the
thrown detail. -/
theorem synthesis_error_not_fallback :
    (handleUserQuery SessionState.init "q" oracleSynthThrow).result.response
        = unexpectedErrorMessage ∧
    (handleUserQuery SessionState.init "q" oracleSynthThrow).result.response
        ≠ synthesisFallback ∧
    (handleUserQuery SessionState.init "q" oracleSynthThrow).result.error
        = some "AI inference failed" := by
  decide

lemma dispatchLoop_congr (o o2 : Oracle) (htool : o.tool = o2.tool)
    (hltr : o.logToolRun = o2.logToolRun) :
    ∀ (calls : List ToolCall) (i : Nat) (acc : List ToolResult) (tr : List Effect),
    dispatchLoop o calls i acc tr = dispatchLoop o2 calls i acc tr := by
  intro calls
  induction calls with
  | nil => intro i acc tr; rfl
  | cons c rest ih =>
    intro i acc tr
    simp only [dispatchLoop, toolOutcome, htool, hltr]
    cases o2.logToolRun i with
    | error d => rfl
    | ok u => exact ih (i + 1) _ _

/-- The pipeline consults only the retrieval, plan, dispatch, synthesis and
audit oracles — never the gate fields. -/
lemma pipeline_congr (o o2 : Oracle) (st : SessionState) (tr : List Effect)
    (hrag : o.rag = o2.rag) (hpl : o.plan = o2.plan)
    (hle : o.logErrorCreatePlan = o2.logErrorCreatePlan)
    (hlc : o.logCreatePlan = o2.logCreatePlan)
    (htool : o.tool = o2.tool) (hltr : o.logToolRun = o2.logToolRun)
    (hsy : o.synth = o2.synth) (hlf : o.logFinalResponse = o2.logFinalResponse) :
    pipeline o st tr = pipeline o2 st tr := by
  have hrc : ragContext o = ragContext o2 := by unfold ragContext; rw [hrag]
  unfold pipeline
  rw [hrc, hpl, hle, hlc, hsy, hlf]
  simp only [dispatchLoop_congr o o2 htool hltr]

/-- C9: a failed or malformed clarification-gate call (no usable structured
result) makes the turn behave exactly as a gate that returned
`needsClarification = false`: identical outcome, and (when the turn-start
audit write succeeds) no wait-state is left persisted. -/
theorem gate_failure_defaults_open (st : SessionState) (q : String) (o : Oracle)
    (hmal : decisionOf o.clarify = none) :
    handleUserQuery st q o =
      handleUserQuery st q { o with clarify := ⟨true, some ⟨false, none⟩, none⟩ } ∧
    (o.logUserQuery = .ok () →
      (handleUserQuery st q o).state.awaitingClarification = false ∧
      (handleUserQuery st q o).state.clarificationContext = none) := by
  constructor
  · unfold handleUserQuery
    dsimp only
    cases h : o.logUserQuery with
    | error d => rfl
    | ok u =>
      rw [hmal]
      simp only [decisionOf, Bool.true_eq, if_true, ite_true]
      exact pipeline_congr o _ _ _ rfl rfl rfl rfl rfl rfl rfl rfl
  · intro hlog
    rw [handleUserQuery_normal st q o hlog
      (fun d hd => by rw [hmal] at hd; cases hd)]
    have hp := pipeline_state_flags o ⟨st.messageHistory ++ [⟨.user, q⟩], false, none⟩
      [.audit "USER_QUERY", .appendHistory ⟨.user, q⟩, .deleteAwaiting, .deleteContext]
    exact ⟨hp.1, hp.2⟩

/-- C9 witness: a gate whose structured call failed leads to the same outcome
as an explicit `needsClarification = false` gate, with the wait-state
cleared. -/
theorem gate_failure_defaults_open_witness :
    (handleUserQuery SessionState.init "hi" oracleGateFailed =
      handleUserQuery SessionState.init "hi"
        { oracleGateFailed with clarify := ⟨true, some ⟨false, none⟩, none⟩ }) ∧
    (handleUserQuery SessionState.init "hi" oracleGateFailed).state.awaitingClarification
        = false ∧
    (handleUserQuery SessionState.init "hi" oracleGateFailed).state.clarificationContext
        = none := by
  have h := gate_failure_defaults_open SessionState.init "hi" oracleGateFailed rfl
  exact ⟨h.1, h.2 rfl⟩

/-- C10: any inbound channel frame that is not a JSON object with a
non-empty string `query` is answered with exactly one error frame, no turn is
started, and the session state — transcript, `awaitingClarification` and
`clarificationContext` — is left unchanged. -/
theorem malformed_ws_message_rejected (st : SessionState) (o : Oracle) (m : WsMessage)
    (h : ∀ q, m ≠ WsMessage.query q) :
    (webSocketOnMessage st o m).state = st ∧
    (webSocketOnMessage st o m).frames.length = 1 ∧
    ((webSocketOnMessage st o m).frames = [invalidFormatFrame] ∨
      (webSocketOnMessage st o m).frames = [queryRequiredFrame]) ∧
    (webSocketOnMessage st o m).turn = none := by
  cases m with
  | query q => exact absurd rfl (h q)
  | notString => exact ⟨rfl, rfl, .inl rfl, rfl⟩
  | emptyString => exact ⟨rfl, rfl, .inl rfl, rfl⟩
  | unparsable r => exact ⟨rfl, rfl, .inl rfl, rfl⟩
  | noQuery => exact ⟨rfl, rfl, .inr rfl, rfl⟩

/-- C10 witness: a parsed frame without a `query` field gets exactly the
`Query is required` frame and leaves the session untouched. -/
theorem malformed_ws_message_rejected_witness :
    (webSocketOnMessage SessionState.init oracleOk .noQuery).state = SessionState.init ∧
    (webSocketOnMessage SessionState.init oracleOk .noQuery).frames.length = 1 ∧
    ((webSocketOnMessage SessionState.init oracleOk .noQuery).frames = [invalidFormatFrame] ∨
      (webSocketOnMessage SessionState.init oracleOk .noQuery).frames = [queryRequiredFrame]) ∧
    (webSocketOnMessage SessionState.init oracleOk .noQuery).turn = none :=
  malformed_ws_message_rejected SessionState.init oracleOk .noQuery
    (fun _ h => WsMessage.noConfusion h)

/-- C5 (amended): the five enumerated Retriever failure modes each return
their own distinct, non-empty fallback string, and `search` never raises as
long as the durable-store hydration call does not throw; a thrown hydration
call, however, propagates out of `searchKnowledgeBase` (the orchestrator
catches it at the turn level). -/
theorem retriever_fallbacks (q : String) (o : RagOracle) :
    ((∀ ids, ∃ rs, o.dbAll ids = .ok rs) → ∃ s, searchKnowledgeBase o q = .ok s) ∧
    (∀ e, o.vectorQuery q = .error e →
      searchKnowledgeBase o q = .ok ragFallbackIndexError) ∧
    (o.vectorQuery q = .ok [] → searchKnowledgeBase o q = .ok ragFallbackNoMatches) ∧
    (∀ ms, o.vectorQuery q = .ok ms → ms ≠ [] → uniqueIdsOf ms = [] →
      searchKnowledgeBase o q = .ok ragFallbackNoIds) ∧
    (∀ ms, o.vectorQuery q = .ok ms → ms ≠ [] → uniqueIdsOf ms ≠ [] →
      o.dbAll (uniqueIdsOf ms) = .ok [] →
      searchKnowledgeBase o q = .ok ragFallbackNoRecords) ∧
    (∀ ms rs, o.vectorQuery q = .ok ms → ms ≠ [] → uniqueIdsOf ms ≠ [] →
      o.dbAll (uniqueIdsOf ms) = .ok rs → rs ≠ [] → sectionsOf ms rs = [] →
      searchKnowledgeBase o q = .ok ragFallbackNoSections) ∧
    List.Pairwise (· ≠ ·) [ragFallbackIndexError, ragFallbackNoMatches,
      ragFallbackNoIds, ragFallbackNoRecords, ragFallbackNoSections] ∧
    (∀ s ∈ [ragFallbackIndexError, ragFallbackNoMatches, ragFallbackNoIds,
      ragFallbackNoRecords, ragFallbackNoSections], s ≠ "") := by
  refine ⟨?_, ?_, ?_, ?_, ?_, ?_, by decide, by decide⟩
  · intro hdb
    unfold searchKnowledgeBase
    cases hv : o.vectorQuery q with
    | error e => exact ⟨ragFallbackIndexError, rfl⟩
    | ok ms =>
      by_cases hms : ms = []
      · exact ⟨ragFallbackNoMatches, by simp [hms]⟩
      · by_cases hids : uniqueIdsOf ms = []
        · exact ⟨ragFallbackNoIds, by simp [hms, hids]⟩
        · obtain ⟨rs, hrs⟩ := hdb (uniqueIdsOf ms)
          have hg : getCuratedKnowledgeByIds o (uniqueIdsOf ms) = .ok rs := by
            simp [getCuratedKnowledgeByIds, hids, hrs]
          by_cases hrsnil : rs = []
          · exact ⟨ragFallbackNoRecords, by simp [hms, hids, hg, hrsnil]⟩
          · by_cases hsec : sectionsOf ms rs = []
            · exact ⟨ragFallbackNoSections, by simp [hms, hids, hg, hrsnil, hsec]⟩
            · exact ⟨String.intercalate "\n\n" (sectionsOf ms rs),
                by simp [hms, hids, hg, hrsnil, hsec]⟩
  · intro e he
    simp [searchKnowledgeBase, he]
  · intro h
    simp [searchKnowledgeBase, h]
  · intro ms hms hne hids
    simp [searchKnowledgeBase, hms, hne, hids]
  · intro ms hms hne hids hdb
    simp [searchKnowledgeBase, getCuratedKnowledgeByIds, hms, hne, hids, hdb]
  · intro ms rs hms hne hids hdb hrs hsec
    simp [searchKnowledgeBase, getCuratedKnowledgeByIds, hms, hne, hids, hdb, hrs, hsec]

/-- C5 witness: a throwing vector index yields the index-error fallback
string rather than an exception. -/
theorem retriever_fallbacks_witness :
    searchKnowledgeBase ragOracleIdxThrow "how to deploy" = .ok ragFallbackIndexError :=
  (retriever_fallbacks "how to deploy" ragOracleIdxThrow).2.1 "index unavailable" rfl

/-- C5 counterexample: `search` is not exception-free — the durable-store
hydration call sits outside any try/catch, so its rejection propagates out of
`searchKnowledgeBase`. -/
theorem search_raises_on_store_error :
    searchKnowledgeBase ragOracleDbThrow "how to deploy" = .error "D1_ERROR" := rfl

end Orchestrator
